import Mathlib

/-!
Verification of the content-aggregator collection pipeline
(`src/collectors/youtube.py`) against its specification.

The Python source is shallowly embedded: pure functions become Lean
functions, the PostgreSQL connection becomes an explicit `Conn` state with
a fault-injection field for the exception taxonomy, the YouTube API client
becomes a record of call-result functions, and the orchestrator `main`
produces an explicit trace of observable events.
-/

namespace ContentAggregator

/-! ## Duration parser (`parse_duration`)

Embeds `re.match(r'PT(?:(\d+)H)?(?:(\d+)M)?(?:(\d+)S)?', duration)`.
Each optional group `(?:(\d+)U)?` matches exactly when the longest leading
digit run is nonempty and immediately followed by the unit letter `U`
(backtracking `\d+` shorter always places a digit where `U` must match, so
it cannot help); otherwise the group matches empty and consumes nothing.
`re.match` anchors at the start only: trailing unmatched input is ignored. -/

/-- Decimal value of a digit string, as Python `int(...)` computes it. -/
def natOfDigits (l : List Char) : Nat :=
  l.foldl (fun acc c => acc * 10 + (c.toNat - '0'.toNat)) 0

/-- One optional regex group `(?:(\d+)U)?`: consume a nonempty digit run
followed by the unit letter, or consume nothing. -/
def tryUnit (unit : Char) (cs : List Char) : Option Nat × List Char :=
  match cs.takeWhile Char.isDigit, cs.dropWhile Char.isDigit with
  | [], _ => (none, cs)
  | _ :: _, [] => (none, cs)
  | d :: ds, c :: rest => if c = unit then (some (natOfDigits (d :: ds)), rest) else (none, cs)

/-- The sum `hours * 3600 + minutes * 60 + seconds` computed from the three
optional groups, absent groups counting as zero (`int(match.group(i) or 0)`). -/
def parseCore (rest : List Char) : Nat :=
  let hr := tryUnit 'H' rest
  let mr := tryUnit 'M' hr.2
  let sr := tryUnit 'S' mr.2
  hr.1.getD 0 * 3600 + mr.1.getD 0 * 60 + sr.1.getD 0

/-- `parse_duration`: `None`/empty input is falsy (`if not duration`) and
yields `none`; input not starting with `PT` fails the match and yields
`none`; otherwise the three optional groups are summed. -/
def parse_duration (duration : Option String) : Option Nat :=
  match duration with
  | none => none
  | some s =>
    if s = "" then none
    else
      match s.data with
      | 'P' :: 'T' :: rest => some (parseCore rest)
      | _ => none

/-! ## Channel resolver (`get_channel_uploads_playlist_id`) -/

/-- `'UU' + channel_id[2:]` — Python slicing drops the first two characters. -/
def get_channel_uploads_playlist_id (channel_id : String) : String :=
  "UU" ++ String.mk (channel_id.data.drop 2)

/-! ## Data model -/

/-- The `video_data` dictionary assembled by `fetch_channel_videos`. -/
structure Video where
  video_id : String
  title : String
  url : String
  description : String
  thumbnail : String
  published_at : String
  channel_name : String
  duration_seconds : Option Nat
  deriving DecidableEq, Repr

/-- A raw item of the platform's `videos().list` response: the fields the
collector reads from `snippet` and `contentDetails`.  `description` and the
high-quality thumbnail URL are optional (`snippet.get(...)`). -/
structure RawVideo where
  id : String
  title : String
  description : Option String
  thumbnailHigh : Option String
  publishedAt : String
  duration : String
  deriving DecidableEq, Repr

/-- A row of the `content` table as written by `insert_video`. -/
structure Row where
  title : String
  url : String
  source_type : String
  source_name : String
  description : String
  thumbnail : String
  published_at : String
  estimated_duration : Option Nat
  deriving DecidableEq, Repr

/-- The column tuple `insert_video` writes for a video. -/
def rowOfVideo (v : Video) : Row :=
  { title := v.title
    url := v.url
    source_type := "youtube"
    source_name := v.channel_name
    description := v.description
    thumbnail := v.thumbnail
    published_at := v.published_at
    estimated_duration := v.duration_seconds }

/-! ## Store connection (`psycopg2` connection)

`committed` are the durable rows; `pending` the uncommitted work of the
open transaction.  `fault` injects the next error `cursor.execute` raises,
modelling psycopg2's exception taxonomy: `integrityError` for constraint
violations (the class `insert_video` catches), `otherError` for everything
else (connection loss, schema mismatch, ...), which `insert_video` does not
catch. -/

inductive PgError where
  | integrityError
  | otherError (msg : String)
  deriving DecidableEq, Repr

structure Conn where
  committed : List Row
  pending : List Row
  fault : Option PgError
  deriving DecidableEq, Repr

/-- `cursor.execute(INSERT ...)`: raises the injected fault if any, raises
`IntegrityError` when the unique `url` constraint is violated, otherwise
adds the row to the open transaction. -/
def executeInsert (conn : Conn) (r : Row) : Except PgError Conn :=
  match conn.fault with
  | some e => .error e
  | none =>
    if (conn.committed ++ conn.pending).any (fun x => x.url = r.url) then
      .error .integrityError
    else
      .ok { conn with pending := conn.pending ++ [r] }

/-- `conn.commit()`. -/
def connCommit (conn : Conn) : Conn :=
  { conn with committed := conn.committed ++ conn.pending, pending := [] }

/-- `conn.rollback()`. -/
def connRollback (conn : Conn) : Conn :=
  { conn with pending := [] }

/-- `insert_video`: execute the INSERT and commit, returning `true`; on
`IntegrityError` roll back and return `false`; any other exception
propagates (is not caught). -/
def insert_video (conn : Conn) (video : Video) : Except String (Bool × Conn) :=
  match executeInsert conn (rowOfVideo video) with
  | .ok conn1 => .ok (true, connCommit conn1)
  | .error .integrityError => .ok (false, connRollback conn)
  | .error (.otherError e) => .error e

/-! ## Video fetcher (`fetch_channel_videos`)

The YouTube API client is a record of the two calls the fetcher makes;
each may fail (network/API errors propagate to the orchestrator).  The
fetcher additionally returns the list of API calls it performed, so that
"no second call" is an observable fact. -/

inductive ApiCall where
  | playlistItemsList (playlistId : String) (maxResults : Nat)
  | videosList (ids : List String)
  deriving DecidableEq, Repr

structure YT where
  playlistItems : String → Nat → Except String (List String)
  videos : List String → Except String (List RawVideo)

/-- Python truthiness of `duration_seconds`: `None` and `0` are falsy. -/
def pyTruthy (d : Option Nat) : Bool :=
  match d with
  | none => false
  | some n => n != 0

/-- The shorts filter `if duration_seconds and duration_seconds < 60`. -/
def shortSkip (d : Option Nat) : Bool :=
  pyTruthy d && d.getD 0 < 60

/-- The per-item loop of `fetch_channel_videos`: parse the duration, skip
definitively-short items, otherwise assemble `video_data`. -/
def buildVideos (channel_name : String) : List RawVideo → List Video
  | [] => []
  | v :: rest =>
    let d := parse_duration (some v.duration)
    if shortSkip d then buildVideos channel_name rest
    else
      { video_id := v.id
        title := v.title
        url := "https://www.youtube.com/watch?v=" ++ v.id
        description := v.description.getD ""
        thumbnail := v.thumbnailHigh.getD ""
        published_at := v.publishedAt
        channel_name := channel_name
        duration_seconds := d } :: buildVideos channel_name rest

/-- `fetch_channel_videos`: list the uploads playlist, return `[]` at once
when it holds no items, otherwise batch-fetch metadata and filter/normalize.
The second component records the API calls made, in order. -/
def fetch_channel_videos (yt : YT) (channel_id channel_name : String)
    (max_results : Nat := 20) : Except String (List Video) × List ApiCall :=
  let pid := get_channel_uploads_playlist_id channel_id
  match yt.playlistItems pid max_results with
  | .error e => (.error e, [.playlistItemsList pid max_results])
  | .ok video_ids =>
    if video_ids.isEmpty then (.ok [], [.playlistItemsList pid max_results])
    else
      match yt.videos video_ids with
      | .error e => (.error e, [.playlistItemsList pid max_results, .videosList video_ids])
      | .ok items =>
        (.ok (buildVideos channel_name items),
         [.playlistItemsList pid max_results, .videosList video_ids])

/-! ## Collection orchestrator (`main`) -/

structure Channel where
  id : String
  name : String
  deriving DecidableEq, Repr

/-- Observable events of a run: reported errors, API calls, per-channel
results, and the final summary print. -/
inductive Event where
  | errorReported (msg : String)
  | apiCall (c : ApiCall)
  | channelDone (name : String) (newCount skippedCount : Nat)
  | channelFailed (name : String)
  | summary (totalNew totalSkipped : Nat)
  deriving DecidableEq, Repr

/-- The `for video in videos: if insert_video(...)` loop.  Each successful
insert commits immediately, so rows inserted before a raised exception
persist; the exception aborts the count for the channel. -/
def insertLoop (conn : Conn) : List Video → Except String Nat × Conn
  | [] => (.ok 0, conn)
  | v :: rest =>
    match insert_video conn v with
    | .ok (inserted, conn1) =>
      match insertLoop conn1 rest with
      | (.ok n, conn2) => (.ok (if inserted then n + 1 else n), conn2)
      | (.error e, conn2) => (.error e, conn2)
    | .error e => (.error e, conn)

/-- The body of the per-channel `try`: fetch, insert each video, count.
An exception anywhere inside is caught at the channel boundary; the channel
then contributes nothing to the run totals. -/
def processChannel (yt : YT) (conn : Conn) (ch : Channel) :
    List Event × Nat × Nat × Conn :=
  let fr := fetch_channel_videos yt ch.id ch.name 20
  let callEvents := fr.2.map Event.apiCall
  match fr.1 with
  | .error e => (callEvents ++ [.errorReported e, .channelFailed ch.name], 0, 0, conn)
  | .ok videos =>
    match insertLoop conn videos with
    | (.ok newCount, conn1) =>
      (callEvents ++ [.channelDone ch.name newCount (videos.length - newCount)],
       newCount, videos.length - newCount, conn1)
    | (.error e, conn1) =>
      (callEvents ++ [.errorReported e, .channelFailed ch.name], 0, 0, conn1)

/-- The channel loop: totals accumulate per-channel results in order. -/
def processChannels (yt : YT) : Conn → List Channel → List Event × Nat × Nat × Conn
  | conn, [] => ([], 0, 0, conn)
  | conn, ch :: rest =>
    let r := processChannel yt conn ch
    let rs := processChannels yt r.2.2.2 rest
    (r.1 ++ rs.1, r.2.1 + rs.2.1, r.2.2.1 + rs.2.2.1, rs.2.2.2)

/-- The ambient configuration `main` reads before processing: the
`YOUTUBE_API_KEY` environment variable, the result of loading
`channels.yaml` (`FileNotFoundError` as `.error`), and the result of
`get_db_connection()`. -/
structure Env where
  youtube_api_key : Option String
  channelsConfig : Except Unit (List Channel)
  dbConnect : Except String Conn

/-- `main`: check the API key (Python falsiness: unset or empty), load the
channel config, connect to the store — each failure reports and returns
before the channel loop — then process every channel and print the summary. -/
def main (env : Env) (yt : YT) : List Event :=
  match env.youtube_api_key with
  | none => [.errorReported "YOUTUBE_API_KEY not found in environment variables"]
  | some key =>
    if key = "" then [.errorReported "YOUTUBE_API_KEY not found in environment variables"]
    else
      match env.channelsConfig with
      | .error _ => [.errorReported "channels.yaml not found"]
      | .ok channels =>
        match env.dbConnect with
        | .error e => [.errorReported ("Database connection failed: " ++ e)]
        | .ok conn =>
          let r := processChannels yt conn channels
          r.1 ++ [.summary r.2.1 r.2.2.1]

/-! ## Statement apparatus for the well-formed duration claim

`mkDuration` builds, from three optional digit segments, the spec's
well-formed compact string `PT#H#M#S` with any segments absent; `segVal`
is the spec's value of a segment, absent counting as zero. -/

def optSeg (u : Char) : Option (List Char) → List Char
  | none => []
  | some l => l ++ [u]

def segVal : Option (List Char) → Nat
  | none => 0
  | some l => natOfDigits l

def mkDuration (hseg mseg sseg : Option (List Char)) : String :=
  String.mk ('P' :: 'T' :: (optSeg 'H' hseg ++ (optSeg 'M' mseg ++ optSeg 'S' sseg)))

/-- A present segment is a nonempty string of decimal digits. -/
def goodSeg : Option (List Char) → Prop
  | none => True
  | some l => l ≠ [] ∧ ∀ c ∈ l, c.isDigit

/-! ## Event census: totals carried by `channelDone` events -/

/-- Sum of the new-item counts reported by `channelDone` events. -/
def sumNew (evs : List Event) : Nat :=
  evs.foldr (fun e a => match e with | .channelDone _ n _ => n + a | _ => a) 0

/-- Sum of the duplicate counts reported by `channelDone` events. -/
def sumSkipped (evs : List Event) : Nat :=
  evs.foldr (fun e a => match e with | .channelDone _ _ s => s + a | _ => a) 0

/-! ## Concrete instances used by the witnesses -/

/-- The raw platform item of a zero-second video, duration `"PT0S"`. -/
def rawZero : RawVideo :=
  { id := "vid0", title := "Zero-second video", description := none,
    thumbnailHigh := none, publishedAt := "2024-01-01T00:00:00Z",
    duration := "PT0S" }

/-- The normalized item `fetch_channel_videos` assembles for `rawZero`. -/
def vidZero : Video :=
  { video_id := "vid0", title := "Zero-second video",
    url := "https://www.youtube.com/watch?v=vid0", description := "",
    thumbnail := "", published_at := "2024-01-01T00:00:00Z",
    channel_name := "Test Channel", duration_seconds := some 0 }

/-- A sample normalized item used to instantiate the writer claims. -/
def vidSample : Video :=
  { video_id := "vid1", title := "Sample video",
    url := "https://www.youtube.com/watch?v=vid1", description := "d",
    thumbnail := "t", published_at := "2024-02-02T00:00:00Z",
    channel_name := "Test Channel", duration_seconds := some 150 }

/-- Three demo channels; the second one's playlist request fails. -/
def chanA : Channel := ⟨"UCaaa", "Channel A"⟩

def chanB : Channel := ⟨"UCbbb", "Channel B"⟩

def chanC : Channel := ⟨"UCccc", "Channel C"⟩

def rawA : RawVideo :=
  { id := "vidA", title := "Video A", description := some "descA",
    thumbnailHigh := some "thumbA", publishedAt := "2024-03-01T00:00:00Z",
    duration := "PT2M30S" }

def rawC : RawVideo :=
  { id := "vidC", title := "Video C", description := none,
    thumbnailHigh := none, publishedAt := "2024-03-02T00:00:00Z",
    duration := "PT1H" }

/-- API stub: channel A yields one video, channel B fails during fetch,
channel C yields one video. -/
def ytDemo : YT :=
  { playlistItems := fun pid _ =>
      if pid = "UUaaa" then .ok ["vidA"]
      else if pid = "UUbbb" then .error "network down"
      else .ok ["vidC"],
    videos := fun ids =>
      if ids = ["vidA"] then .ok [rawA] else .ok [rawC] }

def connEmpty : Conn := ⟨[], [], none⟩

def envDemo : Env :=
  { youtube_api_key := some "k"
    channelsConfig := .ok [chanA, chanB, chanC]
    dbConnect := .ok connEmpty }

def envNoKey : Env :=
  { youtube_api_key := none
    channelsConfig := .ok [chanA]
    dbConnect := .ok connEmpty }

/-! ## Sanity checks on the parser embedding -/

example : parse_duration (some "PT1H2M3S") = some 3723 := by decide
example : parse_duration (some "PT15M33S") = some 933 := by decide
example : parse_duration (some "PT1H") = some 3600 := by decide
example : parse_duration (some "PT45S") = some 45 := by decide
example : parse_duration (some "PT0S") = some 0 := by decide
example : parse_duration (some "") = none := by decide
example : parse_duration none = none := by decide
example : parse_duration (some "garbage") = none := by decide
example : parse_duration (some "PT") = some 0 := by decide
example : parse_duration (some "PTabc") = some 0 := by decide

/-! ## Lemmas about the duration parser -/

theorem takeWhile_digits_append {l : List Char} {c : Char} {r : List Char}
    (hl : ∀ x ∈ l, x.isDigit) (hc : ¬ c.isDigit) :
    (l ++ c :: r).takeWhile Char.isDigit = l ∧
      (l ++ c :: r).dropWhile Char.isDigit = c :: r := by
  induction l with
  | nil => simp [List.takeWhile_cons, List.dropWhile_cons, hc]
  | cons a as ih =>
    have ha : a.isDigit := hl a (by simp)
    have ih' := ih (fun x hx => hl x (by simp [hx]))
    simp [List.takeWhile_cons, List.dropWhile_cons, ha, ih'.1, ih'.2]

theorem takeWhile_digits_all {l : List Char} (hl : ∀ x ∈ l, x.isDigit) :
    l.takeWhile Char.isDigit = l ∧ l.dropWhile Char.isDigit = [] := by
  induction l with
  | nil => simp
  | cons a as ih =>
    have ha : a.isDigit := hl a (by simp)
    have ih' := ih (fun x hx => hl x (by simp [hx]))
    simp [List.takeWhile_cons, List.dropWhile_cons, ha, ih'.1, ih'.2]

/-- An optional group whose digit run is nonempty and followed by its unit
letter consumes the run and the letter. -/
theorem tryUnit_match {u : Char} {l r : List Char}
    (hl : ∀ x ∈ l, x.isDigit) (hne : l ≠ []) (hu : ¬ u.isDigit) :
    tryUnit u (l ++ u :: r) = (some (natOfDigits l), r) := by
  obtain ⟨d, ds, rfl⟩ : ∃ d ds, l = d :: ds := by
    cases l with
    | nil => exact absurd rfl hne
    | cons d ds => exact ⟨d, ds, rfl⟩
  have h := takeWhile_digits_append (c := u) (r := r) hl hu
  unfold tryUnit
  rw [h.1, h.2]
  simp

/-- An optional group whose digit run is followed by a different non-digit
letter matches empty and consumes nothing. -/
theorem tryUnit_mismatch {u c : Char} {l r : List Char}
    (hl : ∀ x ∈ l, x.isDigit) (hc : ¬ c.isDigit) (hne : c ≠ u) :
    tryUnit u (l ++ c :: r) = (none, l ++ c :: r) := by
  have h := takeWhile_digits_append (c := c) (r := r) hl hc
  unfold tryUnit
  rw [h.1, h.2]
  cases l with
  | nil => rfl
  | cons d ds => simp [hne]

/-- An optional group facing only digits (no unit letter follows) matches
empty and consumes nothing. -/
theorem tryUnit_digits {u : Char} {l : List Char} (hl : ∀ x ∈ l, x.isDigit) :
    tryUnit u l = (none, l) := by
  have h := takeWhile_digits_all hl
  cases l with
  | nil => simp [tryUnit]
  | cons d ds => simp only [tryUnit, h.1, h.2]

theorem tryUnit_optSeg_S {sseg : Option (List Char)} (hs : goodSeg sseg) :
    tryUnit 'S' (optSeg 'S' sseg) = (Option.map natOfDigits sseg, []) := by
  cases sseg with
  | none => simp [optSeg, tryUnit]
  | some l =>
    have h := tryUnit_match (u := 'S') (r := []) hs.2 hs.1 (by decide)
    simpa [optSeg] using h

theorem tryUnit_optSeg_M {mseg sseg : Option (List Char)}
    (hm : goodSeg mseg) (hs : goodSeg sseg) :
    tryUnit 'M' (optSeg 'M' mseg ++ optSeg 'S' sseg) =
      (Option.map natOfDigits mseg, optSeg 'S' sseg) := by
  cases mseg with
  | some l =>
    have h := tryUnit_match (u := 'M') (r := optSeg 'S' sseg) hm.2 hm.1 (by decide)
    simpa [optSeg] using h
  | none =>
    cases sseg with
    | none => simp [optSeg, tryUnit]
    | some ls =>
      have h := tryUnit_mismatch (u := 'M') (c := 'S') (r := ([] : List Char))
        hs.2 (by decide) (by decide)
      simpa [optSeg] using h

theorem tryUnit_optSeg_H {hseg mseg sseg : Option (List Char)}
    (hh : goodSeg hseg) (hm : goodSeg mseg) (hs : goodSeg sseg) :
    tryUnit 'H' (optSeg 'H' hseg ++ (optSeg 'M' mseg ++ optSeg 'S' sseg)) =
      (Option.map natOfDigits hseg, optSeg 'M' mseg ++ optSeg 'S' sseg) := by
  cases hseg with
  | some l =>
    have h := tryUnit_match (u := 'H') (r := optSeg 'M' mseg ++ optSeg 'S' sseg)
      hh.2 hh.1 (by decide)
    simpa [optSeg] using h
  | none =>
    cases mseg with
    | some lm =>
      have h := tryUnit_mismatch (u := 'H') (c := 'M') (r := optSeg 'S' sseg)
        hm.2 (by decide) (by decide)
      simpa [optSeg] using h
    | none =>
      cases sseg with
      | none => simp [optSeg, tryUnit]
      | some ls =>
        have h := tryUnit_mismatch (u := 'H') (c := 'S') (r := ([] : List Char))
          hs.2 (by decide) (by decide)
        simpa [optSeg] using h

theorem parseCore_mkDuration {hseg mseg sseg : Option (List Char)}
    (hh : goodSeg hseg) (hm : goodSeg mseg) (hs : goodSeg sseg) :
    parseCore (optSeg 'H' hseg ++ (optSeg 'M' mseg ++ optSeg 'S' sseg)) =
      segVal hseg * 3600 + segVal mseg * 60 + segVal sseg := by
  have h1 := tryUnit_optSeg_H hh hm hs
  have h2 := tryUnit_optSeg_M hm hs
  have h3 := tryUnit_optSeg_S hs
  simp only [parseCore, h1, h2, h3]
  cases hseg <;> cases mseg <;> cases sseg <;> simp [segVal]

/-! ## Lemmas about the store writer -/

/-- Behaviour of `insert_video` on a healthy connection with no open
transaction: commit and `true` for a fresh url, rollback and `false` for a
duplicate url.  Shared basis of the dedup and idempotence claims. -/
theorem insert_video_healthy (conn : Conn) (v : Video)
    (hf : conn.fault = none) (hp : conn.pending = []) :
    ((∀ r ∈ conn.committed, r.url ≠ v.url) →
      insert_video conn v =
        .ok (true, { committed := conn.committed ++ [rowOfVideo v],
                     pending := [], fault := none })) ∧
    ((∃ r ∈ conn.committed, r.url = v.url) →
      insert_video conn v = .ok (false, conn)) := by
  obtain ⟨cm, pe, fa⟩ := conn
  simp only at hf hp
  subst hf hp
  constructor
  · intro hnew
    have hcond : ¬ ∃ x ∈ cm, x.url = (rowOfVideo v).url := by
      rintro ⟨r, hr, he⟩
      exact hnew r hr he
    simp [insert_video, executeInsert, connCommit, hcond]
  · intro hdup
    have hcond : ∃ x ∈ cm, x.url = (rowOfVideo v).url := hdup
    simp [insert_video, executeInsert, connRollback, hcond]

/-! ## Lemmas about the orchestrator's event census -/

theorem sumNew_append (l1 l2 : List Event) :
    sumNew (l1 ++ l2) = sumNew l1 + sumNew l2 := by
  induction l1 with
  | nil => simp [sumNew]
  | cons e rest ih =>
    cases e <;> simp [sumNew, List.foldr] at ih ⊢ <;> omega

theorem sumSkipped_append (l1 l2 : List Event) :
    sumSkipped (l1 ++ l2) = sumSkipped l1 + sumSkipped l2 := by
  induction l1 with
  | nil => simp [sumSkipped]
  | cons e rest ih =>
    cases e <;> simp [sumSkipped, List.foldr] at ih ⊢ <;> omega

theorem foldrNew_map_apiCall (l : List ApiCall) (init : Nat) :
    List.foldr (fun e a => match e with | Event.channelDone _ n _ => n + a | _ => a)
      init (l.map Event.apiCall) = init := by
  induction l with
  | nil => rfl
  | cons c rest ih => simpa using ih

theorem foldrSkipped_map_apiCall (l : List ApiCall) (init : Nat) :
    List.foldr (fun e a => match e with | Event.channelDone _ _ s => s + a | _ => a)
      init (l.map Event.apiCall) = init := by
  induction l with
  | nil => rfl
  | cons c rest ih => simpa using ih

theorem sumNew_map_apiCall (l : List ApiCall) :
    sumNew (l.map Event.apiCall) = 0 :=
  foldrNew_map_apiCall l 0

theorem sumSkipped_map_apiCall (l : List ApiCall) :
    sumSkipped (l.map Event.apiCall) = 0 :=
  foldrSkipped_map_apiCall l 0

/-- A processed channel's events carry exactly its contribution to the run
totals, and name the channel as succeeded or failed. -/
theorem processChannel_census (yt : YT) (conn : Conn) (ch : Channel) :
    sumNew (processChannel yt conn ch).1 = (processChannel yt conn ch).2.1 ∧
    sumSkipped (processChannel yt conn ch).1 = (processChannel yt conn ch).2.2.1 ∧
    (Event.channelDone ch.name (processChannel yt conn ch).2.1
        (processChannel yt conn ch).2.2.1 ∈ (processChannel yt conn ch).1 ∨
      Event.channelFailed ch.name ∈ (processChannel yt conn ch).1) := by
  unfold processChannel
  rcases hfr : (fetch_channel_videos yt ch.id ch.name 20).1 with e | videos
  · simp [hfr, sumNew_append, sumSkipped_append, sumNew, sumSkipped,
      foldrNew_map_apiCall, foldrSkipped_map_apiCall]
  · rcases hil : insertLoop conn videos with ⟨r, conn1⟩
    rcases r with e | n
    · simp [hfr, hil, sumNew_append, sumSkipped_append, sumNew, sumSkipped,
        foldrNew_map_apiCall, foldrSkipped_map_apiCall]
    · simp [hfr, hil, sumNew_append, sumSkipped_append, sumNew, sumSkipped,
        foldrNew_map_apiCall, foldrSkipped_map_apiCall]

/-- The channel loop's totals are exactly the census of its events, and
every channel appears as succeeded or failed. -/
theorem processChannels_census (yt : YT) (conn : Conn) (channels : List Channel) :
    (processChannels yt conn channels).2.1 = sumNew (processChannels yt conn channels).1 ∧
    (processChannels yt conn channels).2.2.1 =
      sumSkipped (processChannels yt conn channels).1 ∧
    ∀ ch ∈ channels,
      (∃ n s, Event.channelDone ch.name n s ∈ (processChannels yt conn channels).1) ∨
      Event.channelFailed ch.name ∈ (processChannels yt conn channels).1 := by
  induction channels generalizing conn with
  | nil => simp [processChannels, sumNew, sumSkipped]
  | cons ch rest ih =>
    have hc := processChannel_census yt conn ch
    have ihr := ih (processChannel yt conn ch).2.2.2
    refine ⟨?_, ?_, ?_⟩
    · simp [processChannels, sumNew_append, hc.1, ihr.1]
    · simp [processChannels, sumSkipped_append, hc.2.1, ihr.2.1]
    · intro c hcmem
      rcases List.mem_cons.mp hcmem with rfl | hcmem
      · rcases hc.2.2 with hdone | hfail
        · exact Or.inl ⟨_, _, by
            simp only [processChannels, List.mem_append]
            exact Or.inl hdone⟩
        · exact Or.inr (by
            simp only [processChannels, List.mem_append]
            exact Or.inl hfail)
      · rcases ihr.2.2 c hcmem with ⟨n, s, hdone⟩ | hfail
        · exact Or.inl ⟨n, s, by
            simp only [processChannels, List.mem_append]
            exact Or.inr hdone⟩
        · exact Or.inr (by
            simp only [processChannels, List.mem_append]
            exact Or.inr hfail)

/-! ## Claim theorems -/

/-- Claim C2: for every well-formed compact duration string `PT#H#M#S` with
any of the H/M/S segments absent (absent counting as zero), `parse_duration`
returns total whole seconds; and `None`, the empty string, and input not
matching the pattern at all (e.g. `"garbage"`) yield `none`, distinct from
zero. -/
theorem parse_duration_wellformed (hseg mseg sseg : Option (List Char))
    (hh : goodSeg hseg) (hm : goodSeg mseg) (hs : goodSeg sseg) :
    parse_duration (some (mkDuration hseg mseg sseg)) =
      some (segVal hseg * 3600 + segVal mseg * 60 + segVal sseg) ∧
    parse_duration none = none ∧
    parse_duration (some "") = none ∧
    parse_duration (some "garbage") = none := by
  refine ⟨?_, by decide, by decide, by decide⟩
  have hne : mkDuration hseg mseg sseg ≠ "" := by
    simp [mkDuration, String.ext_iff]
  simp only [parse_duration, mkDuration, if_neg hne]
  exact congrArg some (parseCore_mkDuration hh hm hs)

/-- Witness for C2 at the spec's example `PT1H2M3S = 3723`. -/
theorem parse_duration_wellformed_witness :
    parse_duration (some (mkDuration (some ['1']) (some ['2']) (some ['3']))) =
      some (segVal (some ['1']) * 3600 + segVal (some ['2']) * 60 + segVal (some ['3'])) ∧
    mkDuration (some ['1']) (some ['2']) (some ['3']) = "PT1H2M3S" ∧
    segVal (some ['1']) * 3600 + segVal (some ['2']) * 60 + segVal (some ['3']) = 3723 :=
  ⟨(parse_duration_wellformed (some ['1']) (some ['2']) (some ['3'])
      ⟨by decide, by decide⟩ ⟨by decide, by decide⟩ ⟨by decide, by decide⟩).1,
   by decide, by decide⟩

/-- Claim C10: any input beginning with `PT` whose remainder holds no digit
at all (so no valid H/M/S segment is present, e.g. `"PT"`, `"PTabc"`)
parses to `0` seconds, not to `none`, because every regex group is
optional. -/
theorem parse_pt_without_segments (rest : List Char)
    (hrest : ∀ c ∈ rest, ¬ c.isDigit) :
    parse_duration (some (String.mk ('P' :: 'T' :: rest))) = some 0 := by
  have hne : String.mk ('P' :: 'T' :: rest) ≠ "" := by
    simp [String.ext_iff]
  have htw : rest.takeWhile Char.isDigit = [] := by
    cases rest with
    | nil => rfl
    | cons a l => simp [List.takeWhile_cons, hrest a (by simp)]
  have h1 : ∀ u, tryUnit u rest = (none, rest) := by
    intro u
    unfold tryUnit
    rw [htw]
  simp only [parse_duration, if_neg hne]
  simp [parseCore, h1]

/-- Witness for C10 at `"PTabc"`. -/
theorem parse_pt_without_segments_witness :
    parse_duration (some (String.mk ('P' :: 'T' :: ['a', 'b', 'c']))) = some 0 ∧
    String.mk ('P' :: 'T' :: ['a', 'b', 'c']) = "PTabc" :=
  ⟨parse_pt_without_segments ['a', 'b', 'c'] (by decide), by decide⟩

/-- Claim C6: channel-id resolution replaces the two-character prefix: for
every suffix `X`, resolving `"UC" ++ X` yields `"UU" ++ X`. -/
theorem resolve_uc_to_uu (X : String) :
    get_channel_uploads_playlist_id ("UC" ++ X) = "UU" ++ X := by
  cases X with
  | mk data =>
    simp [get_channel_uploads_playlist_id, String.ext_iff, String.data_append]

/-- Claim C1 fails on the code: an item whose duration parses to `0`
(`"PT0S"`) has parsed duration `< 60` yet is retained — `0` is falsy in
`if duration_seconds and duration_seconds < 60` — and is stored with
`estimated_duration = 0`, which the claimed invariant says can never
happen. -/
theorem zero_duration_retained_and_stored :
    parse_duration (some "PT0S") = some 0 ∧
    shortSkip (some 0) = false ∧
    buildVideos "Test Channel" [rawZero] = [vidZero] ∧
    insert_video { committed := [], pending := [], fault := none } vidZero =
      .ok (true, { committed := [rowOfVideo vidZero], pending := [], fault := none }) ∧
    (rowOfVideo vidZero).estimated_duration = some 0 := by
  refine ⟨by decide, by decide, by decide, by rfl, by decide⟩

/-- Claim C3: on a healthy connection with no open transaction, the writer
returns `true` and commits the row when the url is new, and on a
uniqueness violation it rolls back, returns `false` instead of raising,
and leaves the store unchanged. -/
theorem insert_video_dedup (conn : Conn) (v : Video)
    (hf : conn.fault = none) (hp : conn.pending = []) :
    ((∀ r ∈ conn.committed, r.url ≠ v.url) →
      insert_video conn v =
        .ok (true, { committed := conn.committed ++ [rowOfVideo v],
                     pending := [], fault := none })) ∧
    ((∃ r ∈ conn.committed, r.url = v.url) →
      insert_video conn v = .ok (false, conn)) :=
  insert_video_healthy conn v hf hp

/-- Witness for C3: a fresh insert succeeds; inserting against a store
already holding the url reports a duplicate and leaves it unchanged. -/
theorem insert_video_dedup_witness :
    insert_video { committed := [], pending := [], fault := none } vidSample =
      .ok (true, { committed := [rowOfVideo vidSample], pending := [], fault := none }) ∧
    insert_video { committed := [rowOfVideo vidSample], pending := [], fault := none } vidSample =
      .ok (false, { committed := [rowOfVideo vidSample], pending := [], fault := none }) :=
  ⟨by
    have h := (insert_video_dedup
      { committed := [], pending := [], fault := none } vidSample rfl rfl).1 (by simp)
    simpa using h,
   by
    have h := (insert_video_dedup
      { committed := [rowOfVideo vidSample], pending := [], fault := none } vidSample rfl rfl).2
      ⟨rowOfVideo vidSample, by simp, rfl⟩
    simpa using h⟩

/-- Claim C4: inserting the same item twice into a store not yet holding
its url inserts exactly one row — the first call returns `true`, the
second returns `false`, and the committed row count is unchanged by the
second call. -/
theorem insert_video_idempotent (conn : Conn) (v : Video)
    (hf : conn.fault = none) (hp : conn.pending = [])
    (hnew : ∀ r ∈ conn.committed, r.url ≠ v.url) :
    ∃ conn1,
      insert_video conn v = .ok (true, conn1) ∧
      insert_video conn1 v = .ok (false, conn1) ∧
      conn1.committed.length = conn.committed.length + 1 := by
  refine ⟨{ committed := conn.committed ++ [rowOfVideo v], pending := [], fault := none },
    (insert_video_healthy conn v hf hp).1 hnew, ?_, by simp⟩
  exact (insert_video_healthy
    { committed := conn.committed ++ [rowOfVideo v], pending := [], fault := none }
    v rfl rfl).2 ⟨rowOfVideo v, by simp, rfl⟩

/-- Witness for C4 on an empty store. -/
theorem insert_video_idempotent_witness :
    ∃ conn1,
      insert_video { committed := [], pending := [], fault := none } vidSample =
        .ok (true, conn1) ∧
      insert_video conn1 vidSample = .ok (false, conn1) ∧
      conn1.committed.length = 0 + 1 :=
  insert_video_idempotent { committed := [], pending := [], fault := none }
    vidSample rfl rfl (by simp)

/-- Claim C8 fails on the code: only constraint violations raised as
`IntegrityError` are caught; a connection loss or schema mismatch raises
through `insert_video` instead of being reported as `false`. -/
theorem insert_other_failure_raises :
    insert_video
      { committed := [], pending := [],
        fault := some (.otherError "connection lost") } vidSample =
      .error "connection lost" := rfl

/-- Claim C8 as amended: failures surfacing as constraint violations
(`IntegrityError`, including ones unrelated to the url) report `false`
exactly like a duplicate; every other failure (connection loss, schema
mismatch) propagates as an exception to the caller. -/
theorem insert_video_error_taxonomy (conn : Conn) (v : Video) (e : String) :
    (conn.fault = some .integrityError →
      insert_video conn v = .ok (false, connRollback conn)) ∧
    (conn.fault = some (.otherError e) → insert_video conn v = .error e) := by
  constructor <;> intro h <;> simp [insert_video, executeInsert, h]

/-- Witness for the amended C8: an injected non-url constraint violation
reports `false`, an injected connection loss raises. -/
theorem insert_video_error_taxonomy_witness :
    insert_video { committed := [], pending := [], fault := some .integrityError }
      vidSample = .ok (false, connRollback
        { committed := [], pending := [], fault := some .integrityError }) ∧
    insert_video { committed := [], pending := [], fault := some (.otherError "schema mismatch") }
      vidSample = .error "schema mismatch" :=
  ⟨(insert_video_error_taxonomy
      { committed := [], pending := [], fault := some .integrityError } vidSample "x").1 rfl,
   (insert_video_error_taxonomy
      { committed := [], pending := [], fault := some (.otherError "schema mismatch") }
      vidSample "schema mismatch").2 rfl⟩

/-- Claim C7: when the uploads playlist holds zero item references, the
fetcher returns `[]` after the single playlist call — no metadata call —
and the channel runs the writer zero times, contributing `(0, 0)` to the
totals and leaving the store untouched. -/
theorem empty_playlist_short_circuit (yt : YT) (ch : Channel) (conn : Conn)
    (h : yt.playlistItems (get_channel_uploads_playlist_id ch.id) 20 = .ok []) :
    fetch_channel_videos yt ch.id ch.name 20 =
      (.ok [], [.playlistItemsList (get_channel_uploads_playlist_id ch.id) 20]) ∧
    processChannel yt conn ch =
      ([.apiCall (.playlistItemsList (get_channel_uploads_playlist_id ch.id) 20),
        .channelDone ch.name 0 0], 0, 0, conn) := by
  have h1 : fetch_channel_videos yt ch.id ch.name 20 =
      (.ok [], [.playlistItemsList (get_channel_uploads_playlist_id ch.id) 20]) := by
    simp [fetch_channel_videos, h]
  refine ⟨h1, ?_⟩
  simp [processChannel, h1, insertLoop]

/-- Witness for C7 with an API stub whose playlists are all empty. -/
theorem empty_playlist_short_circuit_witness :
    fetch_channel_videos
      { playlistItems := fun _ _ => .ok [], videos := fun _ => .error "unused" }
      "UCabc123" "Test Channel" 20 =
      (.ok [], [.playlistItemsList (get_channel_uploads_playlist_id "UCabc123") 20]) ∧
    processChannel
      { playlistItems := fun _ _ => .ok [], videos := fun _ => .error "unused" }
      { committed := [], pending := [], fault := none } ⟨"UCabc123", "Test Channel"⟩ =
      ([.apiCall (.playlistItemsList (get_channel_uploads_playlist_id "UCabc123") 20),
        .channelDone "Test Channel" 0 0], 0, 0,
       { committed := [], pending := [], fault := none }) :=
  empty_playlist_short_circuit
    { playlistItems := fun _ _ => .ok [], videos := fun _ => .error "unused" }
    ⟨"UCabc123", "Test Channel"⟩ { committed := [], pending := [], fault := none } rfl

/-- Claim C5: once setup succeeds, the run processes every channel — each
appears in the trace as done or failed, a failure never aborting the
remaining channels — the final summary always prints, and its totals are
exactly the counts carried by the `channelDone` events of the channels
that succeeded. -/
theorem channel_failure_isolation (env : Env) (yt : YT) (key : String)
    (channels : List Channel) (conn : Conn)
    (hkey : env.youtube_api_key = some key) (hk : ¬ key = "")
    (hch : env.channelsConfig = .ok channels) (hdb : env.dbConnect = .ok conn) :
    main env yt = (processChannels yt conn channels).1 ++
      [.summary (processChannels yt conn channels).2.1
        (processChannels yt conn channels).2.2.1] ∧
    (processChannels yt conn channels).2.1 =
      sumNew (processChannels yt conn channels).1 ∧
    (processChannels yt conn channels).2.2.1 =
      sumSkipped (processChannels yt conn channels).1 ∧
    ∀ ch ∈ channels,
      (∃ n s, Event.channelDone ch.name n s ∈ (processChannels yt conn channels).1) ∨
      Event.channelFailed ch.name ∈ (processChannels yt conn channels).1 := by
  have hc := processChannels_census yt conn channels
  refine ⟨?_, hc.1, hc.2.1, hc.2.2⟩
  simp [main, hkey, hk, hch, hdb]

/-- Witness for C5: with three channels whose second fails during fetch,
the run still processes the first and third and the totals `(2, 0)` count
exactly the two succeeding channels. -/
theorem channel_failure_isolation_witness :
    (main envDemo ytDemo = (processChannels ytDemo connEmpty [chanA, chanB, chanC]).1 ++
      [.summary (processChannels ytDemo connEmpty [chanA, chanB, chanC]).2.1
        (processChannels ytDemo connEmpty [chanA, chanB, chanC]).2.2.1] ∧
     (processChannels ytDemo connEmpty [chanA, chanB, chanC]).2.1 =
       sumNew (processChannels ytDemo connEmpty [chanA, chanB, chanC]).1 ∧
     (processChannels ytDemo connEmpty [chanA, chanB, chanC]).2.2.1 =
       sumSkipped (processChannels ytDemo connEmpty [chanA, chanB, chanC]).1 ∧
     ∀ ch ∈ [chanA, chanB, chanC],
       (∃ n s, Event.channelDone ch.name n s ∈
          (processChannels ytDemo connEmpty [chanA, chanB, chanC]).1) ∨
       Event.channelFailed ch.name ∈
         (processChannels ytDemo connEmpty [chanA, chanB, chanC]).1) ∧
    (processChannels ytDemo connEmpty [chanA, chanB, chanC]).2.1 = 2 ∧
    (processChannels ytDemo connEmpty [chanA, chanB, chanC]).2.2.1 = 0 ∧
    Event.channelDone "Channel A" 1 0 ∈
      (processChannels ytDemo connEmpty [chanA, chanB, chanC]).1 ∧
    Event.channelFailed "Channel B" ∈
      (processChannels ytDemo connEmpty [chanA, chanB, chanC]).1 ∧
    Event.channelDone "Channel C" 1 0 ∈
      (processChannels ytDemo connEmpty [chanA, chanB, chanC]).1 :=
  ⟨channel_failure_isolation envDemo ytDemo "k" [chanA, chanB, chanC] connEmpty
      rfl (by decide) rfl rfl,
   by decide, by decide, by decide, by decide, by decide⟩

/-- Claim C9: a missing API credential, an unreadable channel
configuration, or a failing store connection is reported and terminates
the run before any network call, before any channel is processed, and
without a summary. -/
theorem fatal_setup_failures (env : Env) (yt : YT)
    (h : env.youtube_api_key = none ∨ env.youtube_api_key = some "" ∨
      env.channelsConfig = .error () ∨ ∃ e, env.dbConnect = .error e) :
    (∃ m, Event.errorReported m ∈ main env yt) ∧
    (∀ c, Event.apiCall c ∉ main env yt) ∧
    (∀ nm n s, Event.channelDone nm n s ∉ main env yt) ∧
    (∀ nm, Event.channelFailed nm ∉ main env yt) ∧
    (∀ n s, Event.summary n s ∉ main env yt) := by
  have hm : ∃ m, main env yt = [.errorReported m] := by
    rcases h with h | h | h | ⟨e, h⟩
    · exact ⟨"YOUTUBE_API_KEY not found in environment variables", by simp [main, h]⟩
    · exact ⟨"YOUTUBE_API_KEY not found in environment variables", by simp [main, h]⟩
    · rcases hak : env.youtube_api_key with _ | k
      · exact ⟨"YOUTUBE_API_KEY not found in environment variables", by simp [main, hak]⟩
      · by_cases hk : k = ""
        · exact ⟨"YOUTUBE_API_KEY not found in environment variables",
            by simp [main, hak, hk]⟩
        · exact ⟨"channels.yaml not found", by simp [main, hak, hk, h]⟩
    · rcases hak : env.youtube_api_key with _ | k
      · exact ⟨"YOUTUBE_API_KEY not found in environment variables", by simp [main, hak]⟩
      · by_cases hk : k = ""
        · exact ⟨"YOUTUBE_API_KEY not found in environment variables",
            by simp [main, hak, hk]⟩
        · rcases hcc : env.channelsConfig with u | chans
          · exact ⟨"channels.yaml not found", by simp [main, hak, hk, hcc]⟩
          · exact ⟨"Database connection failed: " ++ e, by simp [main, hak, hk, hcc, h]⟩
  obtain ⟨m, hme⟩ := hm
  refine ⟨⟨m, by simp [hme]⟩, ?_, ?_, ?_, ?_⟩ <;> intros <;> simp [hme]

/-- Witness for C9 at a run with no API key configured. -/
theorem fatal_setup_failures_witness :
    (∃ m, Event.errorReported m ∈ main envNoKey ytDemo) ∧
    (∀ c, Event.apiCall c ∉ main envNoKey ytDemo) ∧
    (∀ nm n s, Event.channelDone nm n s ∉ main envNoKey ytDemo) ∧
    (∀ nm, Event.channelFailed nm ∉ main envNoKey ytDemo) ∧
    (∀ n s, Event.summary n s ∉ main envNoKey ytDemo) :=
  fatal_setup_failures envNoKey ytDemo (Or.inl rfl)

end ContentAggregator
